import Mathlib

/-!
Verification of the recording/transcription state machine of the
Speech-Recognition-App repository.  The repository holds two near-duplicate
Streamlit variants of the same app:

* `src/speech_mod.py` (the "mod" variant), and
* `src/speech_reg.py` (the "reg" variant).

Each variant consists of the adapter function `transcribe_speech`, the three
state-machine operations `start_recording`, `stop_recording`,
`pause_recording`, and a `main` function that dispatches button clicks into
those operations (a button is unclickable while `disabled`, which is how
`main` guards the operations against the current state).

The embedding below is shallow: the Streamlit session state becomes an
explicit `Session` record, the external `speech_recognition` library calls
become oracle parameters (`CaptureOutcome` for `Recognizer.listen`,
`Provider -> RecogOutcome` for the three recognize_* provider calls), and
each Python function becomes a Lean function from the pre-state to an
`OpResult` that also records the observable effects the claims speak about:
microphone-device open/close events of the `with` blocks, the number of
`sr.Microphone()` constructions, the provider calls attempted, whether the
operation let an exception escape to its caller, and whether it forced a UI
rerun.
-/

namespace SpeechApp

/-- Identity of the three transcription providers the adapter can call
(`recognize_google`, `recognize_sphinx`, `recognize_wit`). -/
inductive Provider
  | google
  | sphinx
  | wit
deriving DecidableEq, Repr

/-- Outcome of one provider call: either a recognized text, or one of the
exception classes the Python code catches (`sr.UnknownValueError`,
`sr.RequestError`, any other `Exception` carrying a message). -/
inductive RecogOutcome
  | ok (text : String)
  | unknownValue
  | requestError (detail : String)
  | otherError (detail : String)
deriving DecidableEq, Repr

/-- Outcome of `recognizer.listen(source)` inside a `with` block: a captured
audio buffer (identified by a number), or an exception with a message.  In
either case Python's `with` statement closes the device on the way out. -/
inductive CaptureOutcome
  | success (audio : Nat)
  | failure (err : String)
deriving DecidableEq, Repr

/-- Microphone-device events: entering a `with microphone as source` block
opens the device (acquire), leaving it — normally or via an exception —
closes it (release). -/
inductive MicEvent
  | acquire
  | release
deriving DecidableEq, Repr

/-- Python truthiness of the `wit_key` argument as tested by `not wit_key`:
`None` and the empty string are falsy. -/
def keyFalsy : Option String → Bool
  | none => true
  | some s => s.isEmpty

/-- Result of `transcribe_speech`: the returned value (`none` models
Python's implicit `return None` when the `if`/`elif` chain is exhausted)
together with the list of provider calls that were attempted. -/
structure TranscribeOut where
  result : Option String
  calls : List Provider
deriving DecidableEq, Repr

/-- Exception handling of `transcribe_speech` in `src/speech_mod.py`
(lines 40-45): `UnknownValueError` becomes "Error: Could not understand
audio", `RequestError` becomes "Error: API unavailable - <detail>", any
other exception becomes "Error: <detail>"; a normal return passes the
recognized text through. -/
def handlerMod : RecogOutcome → String
  | .ok t => t
  | .unknownValue => "Error: Could not understand audio"
  | .requestError d => "Error: API unavailable - " ++ d
  | .otherError d => "Error: " ++ d

/-- Exception handling of `transcribe_speech` in `src/speech_reg.py`
(lines 27-32): `UnknownValueError` becomes "Error: Speech not understood",
`RequestError` becomes "API Error: <detail>", any other exception becomes
"Error: <detail>". -/
def handlerReg : RecogOutcome → String
  | .ok t => t
  | .unknownValue => "Error: Speech not understood"
  | .requestError d => "API Error: " ++ d
  | .otherError d => "Error: " ++ d

/-- `transcribe_speech(api, language, wit_key)` of `src/speech_mod.py`
(lines 20-45).  "Google" calls `recognize_google`, "Sphinx" calls
`recognize_sphinx`; "Wit.ai" first returns "Error: Wit.ai API key is
required" when `not wit_key`, otherwise calls `recognize_wit`.  Any other
`api` string falls off the `if`/`elif` chain and returns `None`.  The
`language` argument is forwarded to the provider and does not influence
control flow. -/
def transcribe_speech_mod (out : Provider → RecogOutcome) (api language : String)
    (wit_key : Option String) : TranscribeOut :=
  if api = "Google" then
    { result := some (handlerMod (out .google)), calls := [.google] }
  else if api = "Sphinx" then
    { result := some (handlerMod (out .sphinx)), calls := [.sphinx] }
  else if api = "Wit.ai" then
    if keyFalsy wit_key then
      { result := some "Error: Wit.ai API key is required", calls := [] }
    else
      { result := some (handlerMod (out .wit)), calls := [.wit] }
  else
    { result := none, calls := [] }

/-- `transcribe_speech(api, language, wit_key)` of `src/speech_reg.py`
(lines 16-32).  Same shape as the mod variant, except that a missing
Wit.ai key raises `ValueError("Wit.ai API key is required")` inside the
`try`, which the catch-all handler turns into "Error: Wit.ai API key is
required"; no provider call is attempted in that case. -/
def transcribe_speech_reg (out : Provider → RecogOutcome) (api language : String)
    (wit_key : Option String) : TranscribeOut :=
  if api = "Google" then
    { result := some (handlerReg (out .google)), calls := [.google] }
  else if api = "Sphinx" then
    { result := some (handlerReg (out .sphinx)), calls := [.sphinx] }
  else if api = "Wit.ai" then
    if keyFalsy wit_key then
      { result := some ("Error: " ++ "Wit.ai API key is required"), calls := [] }
    else
      { result := some (handlerReg (out .wit)), calls := [.wit] }
  else
    { result := none, calls := [] }

/-- The Streamlit session state fields both variants read and write.
`transcript` is `Option String` because `stop_recording` assigns the raw
return value of `transcribe_speech`, which can be Python `None`.
`audio_source` holds the id of the current `sr.Microphone()` object and
`recognizer` the id of the current `sr.Recognizer()` object; fresh ids are
drawn from a counter threaded through the operations. -/
structure Session where
  recording : Bool
  transcript : Option String
  audio_source : Option Nat
  recognizer : Nat
  audio_data : Option Nat
  selected_api : String
  selected_language : String
  wit_key : Option String
deriving DecidableEq, Repr

/-- Result of running one state-machine operation: the post-state, the next
fresh object id, the microphone device open/close events, the number of
`sr.Microphone()` constructions, the provider calls attempted, the message
of an exception that escaped the operation (if any), and whether the
operation forced a Streamlit rerun. -/
structure OpResult where
  session : Session
  fresh : Nat
  micEvents : List MicEvent
  newHandles : Nat
  calls : List Provider
  raised : Option String
  rerun : Bool
deriving Repr

/-- Result of an operation that did nothing: state unchanged, no effects. -/
def skip (s : Session) (f : Nat) : OpResult :=
  { session := s, fresh := f, micEvents := [], newHandles := 0, calls := [],
    raised := none, rerun := false }

/-- `start_recording()` of `src/speech_mod.py` (lines 47-51): sets
`recording = True`, constructs a fresh `sr.Microphone()` into
`audio_source` and a fresh `sr.Recognizer()` into `recognizer`.  It does
not touch `audio_data`, and it opens no device. -/
def start_recording_mod (s : Session) (f : Nat) : OpResult :=
  { session := { s with recording := true, audio_source := some f, recognizer := f + 1 },
    fresh := f + 2, micEvents := [], newHandles := 1, calls := [],
    raised := none, rerun := false }

/-- `start_recording()` of `src/speech_reg.py` (lines 34-40): sets
`recording = True`, constructs a fresh `sr.Microphone()`, then inside a
`with` block runs `adjust_for_ambient_noise` and sets `audio_data = None`.
`amb = some e` models `adjust_for_ambient_noise` raising an exception with
message `e`: the `with` block still closes the device, the exception
escapes the function, and the `audio_data = None` line is never reached. -/
def start_recording_reg (amb : Option String) (s : Session) (f : Nat) : OpResult :=
  match amb with
  | none =>
    { session := { s with recording := true, audio_source := some f, audio_data := none },
      fresh := f + 1, micEvents := [.acquire, .release], newHandles := 1, calls := [],
      raised := none, rerun := false }
  | some e =>
    { session := { s with recording := true, audio_source := some f },
      fresh := f + 1, micEvents := [.acquire, .release], newHandles := 1, calls := [],
      raised := some e, rerun := false }

/-- The Start-button dispatch of `main()` in `src/speech_mod.py`
(line 109): the button is rendered with `disabled=st.session_state.recording`,
so `start_recording()` can only run when `recording` is false; while
`recording` is true the click cannot happen and the state is untouched. -/
def startButton_mod (s : Session) (f : Nat) : OpResult :=
  if s.recording then skip s f else start_recording_mod s f

/-- The Start-button dispatch of `main()` in `src/speech_reg.py`
(line 95): same `disabled=st.session_state.recording` guard around
`start_recording()`. -/
def startButton_reg (amb : Option String) (s : Session) (f : Nat) : OpResult :=
  if s.recording then skip s f else start_recording_reg amb s f

/-- `stop_recording()` of `src/speech_mod.py` (lines 53-68): guarded by
`if st.session_state.recording`; inside, `recording = False`, then a `try`
block opens the microphone, listens, stores the audio, and stores the
result of `transcribe_speech` into `transcript`; any exception is caught
and `transcript` is set to "Recording error: <message>".  The provider
outcome oracle `out` supplies the behavior of whichever provider
`transcribe_speech` calls. -/
def stop_recording_mod (cap : CaptureOutcome) (out : Provider → RecogOutcome)
    (s : Session) (f : Nat) : OpResult :=
  if s.recording then
    match cap with
    | .success a =>
      let t := transcribe_speech_mod out s.selected_api s.selected_language s.wit_key
      let s2 := { s with recording := false, audio_data := some a, transcript := t.result }
      { session := s2, fresh := f, micEvents := [.acquire, .release], newHandles := 0,
        calls := t.calls, raised := none, rerun := false }
    | .failure e =>
      let s2 := { s with recording := false, transcript := some ("Recording error: " ++ e) }
      { session := s2, fresh := f, micEvents := [.acquire, .release], newHandles := 0,
        calls := [], raised := none, rerun := false }
  else skip s f

/-- `stop_recording()` of `src/speech_reg.py` (lines 42-53): same guard and
same capture-then-transcribe body, but with no `try`/`except` around it —
an exception raised by `listen` escapes `stop_recording` after the `with`
block has closed the device, leaving `transcript` and `audio_data`
unchanged (`recording` was already set to False before the capture). -/
def stop_recording_reg (cap : CaptureOutcome) (out : Provider → RecogOutcome)
    (s : Session) (f : Nat) : OpResult :=
  if s.recording then
    match cap with
    | .success a =>
      let t := transcribe_speech_reg out s.selected_api s.selected_language s.wit_key
      let s2 := { s with recording := false, audio_data := some a, transcript := t.result }
      { session := s2, fresh := f, micEvents := [.acquire, .release], newHandles := 0,
        calls := t.calls, raised := none, rerun := false }
    | .failure e =>
      { session := { s with recording := false },
        fresh := f, micEvents := [.acquire, .release], newHandles := 0,
        calls := [], raised := some e, rerun := false }
  else skip s f

/-- `pause_recording()` of `src/speech_mod.py` (lines 70-73): when
`recording` is true it sets `recording = False` and nothing else;
otherwise it does nothing. -/
def pause_recording_mod (s : Session) (f : Nat) : OpResult :=
  if s.recording then
    { session := { s with recording := false },
      fresh := f, micEvents := [], newHandles := 0, calls := [],
      raised := none, rerun := false }
  else skip s f

/-- `pause_recording()` of `src/speech_reg.py` (lines 55-59): when
`recording` is true it sets `recording = False` and calls
`st.experimental_rerun()`, which restarts the script run but changes no
session field; otherwise it does nothing. -/
def pause_recording_reg (s : Session) (f : Nat) : OpResult :=
  if s.recording then
    { session := { s with recording := false },
      fresh := f, micEvents := [], newHandles := 0, calls := [],
      raised := none, rerun := true }
  else skip s f

/-- One user intent delivered by the presentation layer, carrying the
behavior of the external microphone and providers for this turn. -/
inductive Intent
  | start (amb : Option String)
  | pause
  | stop (cap : CaptureOutcome) (out : Provider → RecogOutcome)

/-- Dispatch of one intent in the mod variant, through the button guards of
`main()` (Start disabled while recording; Pause and Stop reach operations
that carry the same `recording` guard internally). -/
def stepMod : Intent → Session → Nat → OpResult
  | .start _, s, f => startButton_mod s f
  | .pause, s, f => pause_recording_mod s f
  | .stop cap out, s, f => stop_recording_mod cap out s f

/-- Dispatch of one intent in the reg variant. -/
def stepReg : Intent → Session → Nat → OpResult
  | .start amb, s, f => startButton_reg amb s f
  | .pause, s, f => pause_recording_reg s f
  | .stop cap out, s, f => stop_recording_reg cap out s f

/-- Final state and concatenated microphone-event trace of a sequence of
intents. -/
structure RunResult where
  session : Session
  fresh : Nat
  events : List MicEvent
deriving Repr

/-- Run a sequence of intents through the mod variant. -/
def runMod : List Intent → Session → Nat → RunResult
  | [], s, f => { session := s, fresh := f, events := [] }
  | i :: l, s, f =>
    let r := stepMod i s f
    let rr := runMod l r.session r.fresh
    { session := rr.session, fresh := rr.fresh, events := r.micEvents ++ rr.events }

/-- Run a sequence of intents through the reg variant. -/
def runReg : List Intent → Session → Nat → RunResult
  | [], s, f => { session := s, fresh := f, events := [] }
  | i :: l, s, f =>
    let r := stepReg i s f
    let rr := runReg l r.session r.fresh
    { session := rr.session, fresh := rr.fresh, events := r.micEvents ++ rr.events }

/-- Number of device acquisitions in a microphone-event trace. -/
def countAcq : List MicEvent → Nat
  | [] => 0
  | .acquire :: l => countAcq l + 1
  | .release :: l => countAcq l

/-- Number of device releases in a microphone-event trace. -/
def countRel : List MicEvent → Nat
  | [] => 0
  | .acquire :: l => countRel l
  | .release :: l => countRel l + 1

/-- The string `r` begins with the string `p`. -/
def beginsWith (p r : String) : Prop := p.data <+: r.data

instance (p r : String) : Decidable (beginsWith p r) :=
  inferInstanceAs (Decidable (p.data <+: r.data))

/-- The session as created at app start: not recording, empty transcript,
no microphone, no audio. -/
def initSession (api language : String) (key : Option String) : Session :=
  { recording := false, transcript := some "", audio_source := none,
    recognizer := 0, audio_data := none, selected_api := api,
    selected_language := language, wit_key := key }

/-! Shared helper lemmas. -/

/-- In the mod variant, `stop_recording` with the guard false does nothing. -/
theorem stop_mod_noop_of_idle (cap : CaptureOutcome) (out : Provider → RecogOutcome)
    (s : Session) (f : Nat) (h : s.recording = false) :
    stop_recording_mod cap out s f = skip s f := by
  simp [stop_recording_mod, h]

/-- In the reg variant, `stop_recording` with the guard false does nothing. -/
theorem stop_reg_noop_of_idle (cap : CaptureOutcome) (out : Provider → RecogOutcome)
    (s : Session) (f : Nat) (h : s.recording = false) :
    stop_recording_reg cap out s f = skip s f := by
  simp [stop_recording_reg, h]

/-- Fixed idle session used as concrete input in witnesses. -/
def sesIdle : Session := initSession "Google" "en-US" none

/-- Claim C4: stop() called when the session is not in the Recording state
is a no-op in both variants — `skip` leaves the session (hence `transcript`
and the recording state) unchanged, records no microphone events (no audio
captured) and no provider calls (the Adapter is never invoked). -/
theorem c4_stop_not_recording_noop (cap : CaptureOutcome) (out : Provider → RecogOutcome)
    (s : Session) (f : Nat) (h : s.recording = false) :
    stop_recording_mod cap out s f = skip s f
    ∧ stop_recording_reg cap out s f = skip s f :=
  ⟨stop_mod_noop_of_idle cap out s f h, stop_reg_noop_of_idle cap out s f h⟩

/-- Witness for C4 at a concrete idle session and capture outcome. -/
theorem c4_stop_not_recording_noop_witness :
    stop_recording_mod (.failure "mic broke") (fun _ => .ok "t") sesIdle 3 = skip sesIdle 3
    ∧ stop_recording_reg (.failure "mic broke") (fun _ => .ok "t") sesIdle 3 = skip sesIdle 3 :=
  c4_stop_not_recording_noop (.failure "mic broke") (fun _ => .ok "t") sesIdle 3 rfl

/-- Claim C10: for every backend string other than "Google", "Sphinx" and
"Wit.ai", `transcribe_speech` of both variants falls off the if/elif chain
and returns Python None (modelled as result `none`), attempting no provider
call. -/
theorem c10_unknown_api_returns_none (out : Provider → RecogOutcome) (api language : String)
    (key : Option String) (h1 : api ≠ "Google") (h2 : api ≠ "Sphinx") (h3 : api ≠ "Wit.ai") :
    transcribe_speech_mod out api language key = { result := none, calls := [] }
    ∧ transcribe_speech_reg out api language key = { result := none, calls := [] } := by
  constructor <;> simp [transcribe_speech_mod, transcribe_speech_reg, h1, h2, h3]

/-- Witness for C10 at the concrete backend string "Azure". -/
theorem c10_unknown_api_returns_none_witness :
    transcribe_speech_mod (fun _ => .ok "t") "Azure" "en-US" (some "k")
      = { result := none, calls := [] }
    ∧ transcribe_speech_reg (fun _ => .ok "t") "Azure" "en-US" (some "k")
      = { result := none, calls := [] } :=
  c10_unknown_api_returns_none (fun _ => .ok "t") "Azure" "en-US" (some "k")
    (by decide) (by decide) (by decide)

/-- Claim C3: with backend "Wit.ai" and an absent or empty key (Python
falsy), both variants yield the dedicated configuration-error result
"Error: Wit.ai API key is required" and attempt zero provider calls. -/
theorem c3_witai_missing_key (out : Provider → RecogOutcome) (language : String)
    (key : Option String) (h : keyFalsy key = true) :
    transcribe_speech_mod out "Wit.ai" language key
      = { result := some "Error: Wit.ai API key is required", calls := [] }
    ∧ transcribe_speech_reg out "Wit.ai" language key
      = { result := some "Error: Wit.ai API key is required", calls := [] } := by
  constructor <;> simp [transcribe_speech_mod, transcribe_speech_reg, h]

/-- Witness for C3 at the concrete key `none`. -/
theorem c3_witai_missing_key_witness :
    transcribe_speech_mod (fun _ => .ok "t") "Wit.ai" "en-US" none
      = { result := some "Error: Wit.ai API key is required", calls := [] }
    ∧ transcribe_speech_reg (fun _ => .ok "t") "Wit.ai" "en-US" none
      = { result := some "Error: Wit.ai API key is required", calls := [] } :=
  c3_witai_missing_key (fun _ => .ok "t") "en-US" none rfl

/-- Claim C8: whenever every provider signals `UnknownValueError` (empty or
silent audio) and a provider is actually reached — backend "Google",
"Sphinx", or "Wit.ai" with a non-falsy key — `transcribe_speech` of each
variant returns exactly its fixed unintelligible-audio error message, so
the result is never a recognized text. -/
theorem c8_silent_audio_unintelligible (out : Provider → RecogOutcome) (language : String)
    (key : Option String) (api : String) (hout : ∀ p, out p = .unknownValue)
    (hapi : api = "Google" ∨ api = "Sphinx" ∨ (api = "Wit.ai" ∧ keyFalsy key = false)) :
    (transcribe_speech_mod out api language key).result
      = some "Error: Could not understand audio"
    ∧ (transcribe_speech_reg out api language key).result
      = some "Error: Speech not understood" := by
  rcases hapi with h | h | ⟨h, hk⟩ <;> subst h <;> constructor <;>
    simp [transcribe_speech_mod, transcribe_speech_reg, hout, handlerMod, handlerReg, *]

/-- Witness for C8 at backend "Google" with the all-unintelligible oracle. -/
theorem c8_silent_audio_unintelligible_witness :
    (transcribe_speech_mod (fun _ => .unknownValue) "Google" "en-US" none).result
      = some "Error: Could not understand audio"
    ∧ (transcribe_speech_reg (fun _ => .unknownValue) "Google" "en-US" none).result
      = some "Error: Speech not understood" :=
  c8_silent_audio_unintelligible (fun _ => .unknownValue) "en-US" none "Google"
    (fun _ => rfl) (Or.inl rfl)

/-- Fixed recording-state session used as concrete input in witnesses and
counterexamples. -/
def sesRec : Session :=
  { recording := true, transcript := some "old", audio_source := some 0, recognizer := 1,
    audio_data := none, selected_api := "Google", selected_language := "en-US",
    wit_key := none }

/-- Idle session still holding the audio buffer captured in a previous
recording cycle. -/
def sesStale : Session := { sesIdle with audio_data := some 7 }

/-- Claim C2: through the Start-button guard of both variants, start() from
Idle yields Recording, start() while Recording is a guarded no-op (`skip`:
no new microphone handle, no device event, state untouched), and a second
start() right after a first one leaves the session as the first left it and
constructs no second microphone handle. -/
theorem c2_start_idempotent (s : Session) (f : Nat) (amb : Option String) :
    (s.recording = false → (startButton_mod s f).session.recording = true
      ∧ (startButton_reg amb s f).session.recording = true)
    ∧ (s.recording = true →
      startButton_mod s f = skip s f ∧ startButton_reg amb s f = skip s f)
    ∧ (startButton_mod (startButton_mod s f).session (startButton_mod s f).fresh).session
        = (startButton_mod s f).session
    ∧ (startButton_mod (startButton_mod s f).session (startButton_mod s f).fresh).newHandles = 0
    ∧ (startButton_reg amb (startButton_reg amb s f).session
        (startButton_reg amb s f).fresh).session = (startButton_reg amb s f).session
    ∧ (startButton_reg amb (startButton_reg amb s f).session
        (startButton_reg amb s f).fresh).newHandles = 0 := by
  cases h : s.recording <;> cases amb <;>
    simp [startButton_mod, startButton_reg, start_recording_mod, start_recording_reg, skip, h]

/-- Witness for C2 at concrete idle and recording sessions. -/
theorem c2_start_idempotent_witness :
    ((startButton_mod sesIdle 0).session.recording = true
      ∧ (startButton_reg none sesIdle 0).session.recording = true)
    ∧ (startButton_mod sesRec 5 = skip sesRec 5 ∧ startButton_reg none sesRec 5 = skip sesRec 5)
    ∧ (startButton_mod (startButton_mod sesIdle 0).session
        (startButton_mod sesIdle 0).fresh).session = (startButton_mod sesIdle 0).session
    ∧ (startButton_mod (startButton_mod sesIdle 0).session
        (startButton_mod sesIdle 0).fresh).newHandles = 0 :=
  ⟨(c2_start_idempotent sesIdle 0 none).1 rfl,
   (c2_start_idempotent sesRec 5 none).2.1 rfl,
   (c2_start_idempotent sesIdle 0 none).2.2.1,
   (c2_start_idempotent sesIdle 0 none).2.2.2.1⟩

/-- Counterexample to claim C5: in the mod variant, start() from Idle on a
session still holding audio from a previous cycle moves to Recording but
leaves `audio_data` untouched — the previous cycle's capture is neither
cleared nor replaced, and `audio_data` is non-null before any capture of
the new cycle has completed. -/
theorem c5_counterexample :
    (startButton_mod sesStale 1).session.recording = true
    ∧ (startButton_mod sesStale 1).session.audio_data = some 7 := ⟨rfl, rfl⟩

/-- Claim C5 (amended): only the reg variant resets `audio_data` to None on
start() from Idle (on the normal ambient-calibration path); the mod
variant's start() leaves `audio_data` exactly as it was, so a previous
cycle's capture persists until the next stop() replaces it. -/
theorem c5_amended_start_reset (s : Session) (f : Nat) (h : s.recording = false) :
    (startButton_reg none s f).session.audio_data = none
    ∧ (startButton_mod s f).session.audio_data = s.audio_data := by
  constructor <;>
    simp [startButton_reg, startButton_mod, start_recording_reg, start_recording_mod, h]

/-- Witness for the amended C5 at the concrete stale idle session. -/
theorem c5_amended_start_reset_witness :
    (startButton_reg none sesStale 1).session.audio_data = none
    ∧ (startButton_mod sesStale 1).session.audio_data = sesStale.audio_data :=
  c5_amended_start_reset sesStale 1 rfl

/-- Claim C9: pause() from Recording clears only the recording flag (every
other session field unchanged) in both variants, pause() when not Recording
changes nothing, and since the post-pause session is exactly an Idle-flag
session, a subsequent stop() is a complete no-op — no capture, no adapter
call. -/
theorem c9_pause_frame (s : Session) (f : Nat) :
    (s.recording = true →
      (pause_recording_mod s f).session = { s with recording := false }
      ∧ (pause_recording_reg s f).session = { s with recording := false })
    ∧ (s.recording = false →
      pause_recording_mod s f = skip s f ∧ pause_recording_reg s f = skip s f)
    ∧ (∀ (cap : CaptureOutcome) (out : Provider → RecogOutcome) (g : Nat),
      stop_recording_mod cap out (pause_recording_mod s f).session g
        = skip (pause_recording_mod s f).session g
      ∧ stop_recording_reg cap out (pause_recording_reg s f).session g
        = skip (pause_recording_reg s f).session g) := by
  have hm : (pause_recording_mod s f).session.recording = false := by
    cases h : s.recording <;> simp [pause_recording_mod, skip, h]
  have hr : (pause_recording_reg s f).session.recording = false := by
    cases h : s.recording <;> simp [pause_recording_reg, skip, h]
  refine ⟨fun h => ?_, fun h => ?_,
    fun cap out g => ⟨stop_mod_noop_of_idle cap out _ g hm, stop_reg_noop_of_idle cap out _ g hr⟩⟩
  · constructor <;> simp [pause_recording_mod, pause_recording_reg, h]
  · constructor <;> simp [pause_recording_mod, pause_recording_reg, h]

/-- Witness for C9 at concrete recording and idle sessions. -/
theorem c9_pause_frame_witness :
    ((pause_recording_mod sesRec 2).session = { sesRec with recording := false }
      ∧ (pause_recording_reg sesRec 2).session = { sesRec with recording := false })
    ∧ (pause_recording_mod sesIdle 2 = skip sesIdle 2
      ∧ pause_recording_reg sesIdle 2 = skip sesIdle 2)
    ∧ stop_recording_mod (.success 4) (fun _ => .ok "t") (pause_recording_mod sesRec 2).session 9
        = skip (pause_recording_mod sesRec 2).session 9 :=
  ⟨(c9_pause_frame sesRec 2).1 rfl, (c9_pause_frame sesIdle 2).2.1 rfl,
   ((c9_pause_frame sesRec 2).2.2 (.success 4) (fun _ => .ok "t") 9).1⟩

/-- Counterexample to claim C1: in the reg variant, a failure during
capture escapes stop_recording as an exception (there is no try/except in
`src/speech_reg.py` lines 42-53) and `transcript` keeps its old value
instead of a descriptive error string. -/
theorem c1_counterexample :
    (stop_recording_reg (.failure "Microphone unavailable") (fun _ => .ok "hi") sesRec 1).raised
      = some "Microphone unavailable"
    ∧ (stop_recording_reg (.failure "Microphone unavailable")
        (fun _ => .ok "hi") sesRec 1).session.transcript = some "old" := ⟨rfl, rfl⟩

/-- Claim C1 (amended): in the mod variant every capture or transcription
failure is caught inside stop_recording — no exception escapes, the
recording flag returns to false, and a capture failure stores the
descriptive string "Recording error: <message>" into the transcript.  In
the reg variant the recording flag also returns to false, but a capture
failure escapes stop_recording as an exception and leaves the transcript
unchanged. -/
theorem c1_amended_stop_errors (s : Session) (f : Nat) (cap : CaptureOutcome)
    (out : Provider → RecogOutcome) (h : s.recording = true) :
    (stop_recording_mod cap out s f).raised = none
    ∧ (stop_recording_mod cap out s f).session.recording = false
    ∧ (∀ e, cap = .failure e →
        (stop_recording_mod cap out s f).session.transcript
          = some ("Recording error: " ++ e))
    ∧ (stop_recording_reg cap out s f).session.recording = false
    ∧ (∀ e, cap = .failure e →
        (stop_recording_reg cap out s f).raised = some e
        ∧ (stop_recording_reg cap out s f).session.transcript = s.transcript) := by
  cases cap <;> simp [stop_recording_mod, stop_recording_reg, h]

/-- Witness for the amended C1 at a concrete recording session and capture
failure. -/
theorem c1_amended_stop_errors_witness :
    (stop_recording_mod (.failure "boom") (fun _ => .ok "t") sesRec 1).raised = none
    ∧ (stop_recording_mod (.failure "boom") (fun _ => .ok "t") sesRec 1).session.recording = false
    ∧ (∀ e, (CaptureOutcome.failure "boom") = .failure e →
        (stop_recording_mod (.failure "boom") (fun _ => .ok "t") sesRec 1).session.transcript
          = some ("Recording error: " ++ e))
    ∧ (stop_recording_reg (.failure "boom") (fun _ => .ok "t") sesRec 1).session.recording = false
    ∧ (∀ e, (CaptureOutcome.failure "boom") = .failure e →
        (stop_recording_reg (.failure "boom") (fun _ => .ok "t") sesRec 1).raised = some e
        ∧ (stop_recording_reg (.failure "boom") (fun _ => .ok "t") sesRec 1).session.transcript
          = sesRec.transcript) :=
  c1_amended_stop_errors sesRec 1 (.failure "boom") (fun _ => .ok "t") rfl

/-- A string beginning with `p` still begins with `p` after appending. -/
theorem beginsWith_append (p a d : String) (h : beginsWith p a) : beginsWith p (a ++ d) := by
  unfold beginsWith at h ⊢
  rw [String.data_append]
  exact h.trans (List.prefix_append _ _)

/-- Every result of the mod handler is the recognized text or begins with
"Error:". -/
theorem handlerMod_spec (o : RecogOutcome) :
    (∃ t, o = .ok t ∧ handlerMod o = t) ∨ beginsWith "Error:" (handlerMod o) := by
  cases o with
  | ok t => exact Or.inl ⟨t, rfl, rfl⟩
  | unknownValue => exact Or.inr (by decide)
  | requestError d =>
    exact Or.inr (beginsWith_append "Error:" "Error: API unavailable - " d (by decide))
  | otherError d => exact Or.inr (beginsWith_append "Error:" "Error: " d (by decide))

/-- Every result of the reg handler is the recognized text or begins with
"Error:" or with "API Error:". -/
theorem handlerReg_spec (o : RecogOutcome) :
    (∃ t, o = .ok t ∧ handlerReg o = t) ∨ beginsWith "Error:" (handlerReg o)
      ∨ beginsWith "API Error:" (handlerReg o) := by
  cases o with
  | ok t => exact Or.inl ⟨t, rfl, rfl⟩
  | unknownValue => exact Or.inr (Or.inl (by decide))
  | requestError d =>
    exact Or.inr (Or.inr (beginsWith_append "API Error:" "API Error: " d (by decide)))
  | otherError d => exact Or.inr (Or.inl (beginsWith_append "Error:" "Error: " d (by decide)))

/-- Shape of every defined mod-variant transcription result. -/
theorem transcribe_mod_result_shape (out : Provider → RecogOutcome) (api language : String)
    (key : Option String) (r : String)
    (hr : (transcribe_speech_mod out api language key).result = some r) :
    (∃ p t, out p = .ok t ∧ r = t) ∨ beginsWith "Error:" r := by
  by_cases hg : api = "Google"
  · subst hg
    simp [transcribe_speech_mod] at hr
    subst hr
    rcases handlerMod_spec (out .google) with ⟨t, ho, he⟩ | h
    · exact Or.inl ⟨.google, t, ho, he⟩
    · exact Or.inr h
  · by_cases hs : api = "Sphinx"
    · subst hs
      simp [transcribe_speech_mod] at hr
      subst hr
      rcases handlerMod_spec (out .sphinx) with ⟨t, ho, he⟩ | h
      · exact Or.inl ⟨.sphinx, t, ho, he⟩
      · exact Or.inr h
    · by_cases hw : api = "Wit.ai"
      · subst hw
        cases hk : keyFalsy key with
        | true =>
          simp [transcribe_speech_mod, hk] at hr
          subst hr
          exact Or.inr (by decide)
        | false =>
          simp [transcribe_speech_mod, hk] at hr
          subst hr
          rcases handlerMod_spec (out .wit) with ⟨t, ho, he⟩ | h
          · exact Or.inl ⟨.wit, t, ho, he⟩
          · exact Or.inr h
      · simp [transcribe_speech_mod, hg, hs, hw] at hr

/-- Shape of every defined reg-variant transcription result. -/
theorem transcribe_reg_result_shape (out : Provider → RecogOutcome) (api language : String)
    (key : Option String) (r : String)
    (hr : (transcribe_speech_reg out api language key).result = some r) :
    (∃ p t, out p = .ok t ∧ r = t) ∨ beginsWith "Error:" r ∨ beginsWith "API Error:" r := by
  by_cases hg : api = "Google"
  · subst hg
    simp [transcribe_speech_reg] at hr
    subst hr
    rcases handlerReg_spec (out .google) with ⟨t, ho, he⟩ | h
    · exact Or.inl ⟨.google, t, ho, he⟩
    · exact Or.inr h
  · by_cases hs : api = "Sphinx"
    · subst hs
      simp [transcribe_speech_reg] at hr
      subst hr
      rcases handlerReg_spec (out .sphinx) with ⟨t, ho, he⟩ | h
      · exact Or.inl ⟨.sphinx, t, ho, he⟩
      · exact Or.inr h
    · by_cases hw : api = "Wit.ai"
      · subst hw
        cases hk : keyFalsy key with
        | true =>
          simp [transcribe_speech_reg, hk] at hr
          subst hr
          exact Or.inr (Or.inl (beginsWith_append "Error:" "Error: "
            "Wit.ai API key is required" (by decide)))
        | false =>
          simp [transcribe_speech_reg, hk] at hr
          subst hr
          rcases handlerReg_spec (out .wit) with ⟨t, ho, he⟩ | h
          · exact Or.inl ⟨.wit, t, ho, he⟩
          · exact Or.inr h
      · simp [transcribe_speech_reg, hg, hs, hw] at hr

/-- Counterexample to claim C6: the reg variant's service-failure path
produces "API Error: <detail>", which does not begin with "Error:". -/
theorem c6_counterexample :
    (transcribe_speech_reg (fun _ => .requestError "connection refused")
      "Google" "en-US" none).result = some "API Error: connection refused"
    ∧ ¬ beginsWith "Error:" "API Error: connection refused" := ⟨rfl, by decide⟩

/-- Claim C6 (amended): every defined transcription result of the mod
variant is the recognized text or begins with "Error:"; every defined
transcription result of the reg variant is the recognized text or begins
with "Error:" or — on the service-failure path — with "API Error:"; and a
capture failure in the mod variant's stop_recording stores a transcript
beginning with "Recording error:" rather than "Error:". -/
theorem c6_amended_error_prefixes (out : Provider → RecogOutcome) (api language : String)
    (key : Option String) :
    (∀ r, (transcribe_speech_mod out api language key).result = some r →
      (∃ p t, out p = .ok t ∧ r = t) ∨ beginsWith "Error:" r)
    ∧ (∀ r, (transcribe_speech_reg out api language key).result = some r →
      (∃ p t, out p = .ok t ∧ r = t) ∨ beginsWith "Error:" r ∨ beginsWith "API Error:" r)
    ∧ (∀ (s : Session) (f : Nat) (e : String), s.recording = true →
      (stop_recording_mod (.failure e) out s f).session.transcript
        = some ("Recording error: " ++ e)
      ∧ beginsWith "Recording error:" ("Recording error: " ++ e)) := by
  refine ⟨fun r hr => transcribe_mod_result_shape out api language key r hr,
    fun r hr => transcribe_reg_result_shape out api language key r hr,
    fun s f e h => ⟨by simp [stop_recording_mod, h],
      beginsWith_append "Recording error:" "Recording error: " e (by decide)⟩⟩

/-- Witness for the amended C6 at concrete oracles, sessions and inputs. -/
theorem c6_amended_error_prefixes_witness :
    ((∃ p t, (fun _ => RecogOutcome.unknownValue : Provider → RecogOutcome) p
        = RecogOutcome.ok t ∧ "Error: Could not understand audio" = t)
      ∨ beginsWith "Error:" "Error: Could not understand audio")
    ∧ ((∃ p t, (fun _ => RecogOutcome.requestError "down" : Provider → RecogOutcome) p
        = RecogOutcome.ok t ∧ "API Error: down" = t)
      ∨ beginsWith "Error:" "API Error: down" ∨ beginsWith "API Error:" "API Error: down")
    ∧ (stop_recording_mod (.failure "boom") (fun _ => RecogOutcome.unknownValue)
        sesRec 1).session.transcript = some ("Recording error: " ++ "boom")
    ∧ beginsWith "Recording error:" ("Recording error: " ++ "boom") :=
  ⟨(c6_amended_error_prefixes (fun _ => .unknownValue) "Google" "en-US" none).1
      "Error: Could not understand audio" rfl,
   (c6_amended_error_prefixes (fun _ => .requestError "down") "Google" "en-US" none).2.1
      "API Error: down" rfl,
   ((c6_amended_error_prefixes (fun _ => .unknownValue) "Google" "en-US" none).2.2
      sesRec 1 "boom" rfl).1,
   ((c6_amended_error_prefixes (fun _ => .unknownValue) "Google" "en-US" none).2.2
      sesRec 1 "boom" rfl).2⟩

/-- Acquisition count distributes over trace concatenation. -/
theorem countAcq_append (l1 l2 : List MicEvent) :
    countAcq (l1 ++ l2) = countAcq l1 + countAcq l2 := by
  induction l1 with
  | nil => simp [countAcq]
  | cons e l ih => cases e <;> simp [countAcq, ih] <;> omega

/-- Release count distributes over trace concatenation. -/
theorem countRel_append (l1 l2 : List MicEvent) :
    countRel (l1 ++ l2) = countRel l1 + countRel l2 := by
  induction l1 with
  | nil => simp [countRel]
  | cons e l ih => cases e <;> simp [countRel, ih] <;> omega

/-- Every single mod-variant step opens and closes the device equally
often: start opens nothing, pause opens nothing, and stop's with-block
closes the device on both the success path and the exception path. -/
theorem step_mod_balanced (i : Intent) (s : Session) (f : Nat) :
    countAcq (stepMod i s f).micEvents = countRel (stepMod i s f).micEvents := by
  cases i with
  | start amb =>
    cases h : s.recording <;>
      simp [stepMod, startButton_mod, start_recording_mod, skip, h, countAcq, countRel]
  | pause =>
    cases h : s.recording <;>
      simp [stepMod, pause_recording_mod, skip, h, countAcq, countRel]
  | stop cap out =>
    cases h : s.recording <;> cases cap <;>
      simp [stepMod, stop_recording_mod, skip, h, countAcq, countRel]

/-- Every single reg-variant step opens and closes the device equally
often: start's ambient-calibration with-block and stop's capture with-block
both close the device even when an exception escapes. -/
theorem step_reg_balanced (i : Intent) (s : Session) (f : Nat) :
    countAcq (stepReg i s f).micEvents = countRel (stepReg i s f).micEvents := by
  cases i with
  | start amb =>
    cases h : s.recording <;> cases amb <;>
      simp [stepReg, startButton_reg, start_recording_reg, skip, h, countAcq, countRel]
  | pause =>
    cases h : s.recording <;>
      simp [stepReg, pause_recording_reg, skip, h, countAcq, countRel]
  | stop cap out =>
    cases h : s.recording <;> cases cap <;>
      simp [stepReg, stop_recording_reg, skip, h, countAcq, countRel]

/-- The microphone event trace of every mod-variant intent sequence is
balanced. -/
theorem run_mod_balanced (l : List Intent) (s : Session) (f : Nat) :
    countAcq (runMod l s f).events = countRel (runMod l s f).events := by
  induction l generalizing s f with
  | nil => simp [runMod, countAcq, countRel]
  | cons i l ih =>
    simp only [runMod, countAcq_append, countRel_append, step_mod_balanced, ih]

/-- The microphone event trace of every reg-variant intent sequence is
balanced. -/
theorem run_reg_balanced (l : List Intent) (s : Session) (f : Nat) :
    countAcq (runReg l s f).events = countRel (runReg l s f).events := by
  induction l generalizing s f with
  | nil => simp [runReg, countAcq, countRel]
  | cons i l ih =>
    simp only [runReg, countAcq_append, countRel_append, step_reg_balanced, ih]

/-- Claim C7: for every sequence of start/pause/stop intents that leaves
the session not recording, the number of microphone-device acquisitions in
the trace equals the number of releases, in both variants — the device
lock is never leaked. -/
theorem c7_mic_acquire_release_balance (l : List Intent) (s : Session) (f : Nat)
    (hmod : (runMod l s f).session.recording = false)
    (hreg : (runReg l s f).session.recording = false) :
    countAcq (runMod l s f).events = countRel (runMod l s f).events
    ∧ countAcq (runReg l s f).events = countRel (runReg l s f).events :=
  ⟨run_mod_balanced l s f, run_reg_balanced l s f⟩

/-- Concrete intent sequence ending in Idle, used by the C7 witness. -/
def intentsEx : List Intent :=
  [.start none, .pause, .start none, .stop (.success 5) (fun _ => .ok "hello world")]

/-- Witness for C7 at a concrete intent sequence that ends not recording. -/
theorem c7_mic_acquire_release_balance_witness :
    countAcq (runMod intentsEx sesIdle 0).events = countRel (runMod intentsEx sesIdle 0).events
    ∧ countAcq (runReg intentsEx sesIdle 0).events
      = countRel (runReg intentsEx sesIdle 0).events :=
  c7_mic_acquire_release_balance intentsEx sesIdle 0 rfl rfl

end SpeechApp
